import Mathlib

/-!
Shallow embedding of the PDF-processing backend
(`src/backend/app/services/textract.py`, `langchain_processor.py`,
`src/backend/app/api/pdfs.py`) together with theorems settling the
frozen claims about it.

Python strings are modelled as Lean `String`; the Python string
operations used by the code (`strip`, `startswith`, `endswith`,
slicing) are re-implemented over the character list so that they
compute by kernel reduction.  Python dicts keyed by strings are
modelled as association lists with Python's insertion-order /
update-in-place semantics.  Python exceptions are modelled with
`Except String`.
-/

/-! ## Python string primitives -/

/-- Whitespace for Python's `str.strip()` (ASCII subset; the texts the
backend manipulates are ASCII). -/
def pyWsChar (c : Char) : Bool :=
  c = ' ' || c = '\t' || c = '\n' || c = '\r' || c = '\x0b' || c = '\x0c'

def trimChars (l : List Char) : List Char :=
  ((l.dropWhile pyWsChar).reverse.dropWhile pyWsChar).reverse

/-- Python `s.strip()`. -/
def pyStrip (s : String) : String := ⟨trimChars s.data⟩

def listStartsWith : List Char → List Char → Bool
  | _, [] => true
  | [], _ :: _ => false
  | c :: cs, p :: ps => c = p && listStartsWith cs ps

/-- Python `s.startswith(p)`. -/
def pyStartsWith (s p : String) : Bool := listStartsWith s.data p.data

/-- Python `s.endswith(p)`. -/
def pyEndsWith (s p : String) : Bool := listStartsWith s.data.reverse p.data.reverse

/-- Python `s[n:]` (character based). -/
def pyDrop (s : String) (n : Nat) : String := ⟨s.data.drop n⟩

/-- Python `s[:-n]` (character based). -/
def pyDropRight (s : String) (n : Nat) : String := ⟨(s.data.reverse.drop n).reverse⟩

def listContainsSub : List Char → List Char → Bool
  | [], p => p.isEmpty
  | c :: t, p => listStartsWith (c :: t) p || listContainsSub t p

/-- Python `sub in s` on strings. -/
def containsSub (s sub : String) : Bool := listContainsSub s.data sub.data

/-! ## Python values and dicts -/

/-- JSON-like Python values (the payloads the backend stores and
returns).  Numbers are carried as rationals; the backend never
computes with them, it only passes them through. -/
inductive PyVal where
  | str : String → PyVal
  | num : Rat → PyVal
  | bool : Bool → PyVal
  | null : PyVal
  | list : List PyVal → PyVal
  | dict : List (String × PyVal) → PyVal

/-- Python `d[k] = v`: update the existing entry in place, else append
(insertion order preserved, as for Python dicts). -/
def dictInsert {α : Type} (d : List (String × α)) (k : String) (v : α) :
    List (String × α) :=
  match d with
  | [] => [(k, v)]
  | (k2, v2) :: t => if k2 = k then (k, v) :: t else (k2, v2) :: dictInsert t k v

/-- Python `d.get(k)` / `k in d` lookup. -/
def dictGet? {α : Type} (d : List (String × α)) (k : String) : Option α :=
  match d with
  | [] => none
  | (k2, v) :: t => if k2 = k then some v else dictGet? t k

/-- Python `d.get(k, dflt)`. -/
def dictGetD {α : Type} (d : List (String × α)) (k : String) (dflt : α) : α :=
  (dictGet? d k).getD dflt

/-- Python `k in d`. -/
def dictHasKey {α : Type} (d : List (String × α)) (k : String) : Bool :=
  (dictGet? d k).isSome

/-! ## A model of Python's `json.loads`

`langchain_processor.py` calls `json.loads` on the cleaned model
output.  The parser below implements the JSON grammar (objects,
arrays, strings with escapes, numbers, literals) with a fuel bound on
nesting; `none` models `json.JSONDecodeError`.  Duplicate object keys
follow Python: the last occurrence wins. -/

def jsonWsChar (c : Char) : Bool := c = ' ' || c = '\t' || c = '\n' || c = '\r'

def hexVal (c : Char) : Option Nat :=
  if '0' ≤ c ∧ c ≤ '9' then some (c.toNat - '0'.toNat)
  else if 'a' ≤ c ∧ c ≤ 'f' then some (c.toNat - 'a'.toNat + 10)
  else if 'A' ≤ c ∧ c ≤ 'F' then some (c.toNat - 'A'.toNat + 10)
  else none

/-- Parse the body of a JSON string (after the opening quote), up to
and including the closing quote.  Strict mode: unescaped control
characters are rejected. -/
def parseStrBody : List Char → Option (List Char × List Char)
  | [] => none
  | '"' :: rest => some ([], rest)
  | '\\' :: rest =>
    match rest with
    | 'u' :: h1 :: h2 :: h3 :: h4 :: rest2 =>
      match hexVal h1, hexVal h2, hexVal h3, hexVal h4 with
      | some a, some b, some c, some d =>
        match parseStrBody rest2 with
        | some (cs, r) => some (Char.ofNat (((a * 16 + b) * 16 + c) * 16 + d) :: cs, r)
        | none => none
      | _, _, _, _ => none
    | e :: rest2 =>
      let ec : Option Char :=
        if e = '"' then some '"'
        else if e = '\\' then some '\\'
        else if e = '/' then some '/'
        else if e = 'b' then some '\x08'
        else if e = 'f' then some '\x0c'
        else if e = 'n' then some '\n'
        else if e = 'r' then some '\r'
        else if e = 't' then some '\t'
        else none
      match ec with
      | some c =>
        match parseStrBody rest2 with
        | some (cs, r) => some (c :: cs, r)
        | none => none
      | none => none
    | [] => none
  | c :: rest =>
    if c.toNat < 32 then none
    else
      match parseStrBody rest with
      | some (cs, r) => some (c :: cs, r)
      | none => none

def isDigitCh (c : Char) : Bool := '0' ≤ c && c ≤ '9'

def digitsToNat (l : List Char) : Nat :=
  l.foldl (fun a c => a * 10 + (c.toNat - '0'.toNat)) 0

/-- Parse a JSON number (RFC 8259 grammar: optional minus, integer
part without leading zeros, optional fraction, optional exponent). -/
def parseNumber (l : List Char) : Option (Rat × List Char) :=
  let (neg, l1) := match l with
    | '-' :: r => (true, r)
    | _ => (false, l)
  let intDigits := l1.takeWhile isDigitCh
  let l2 := l1.dropWhile isDigitCh
  if intDigits.isEmpty then none
  else if 1 < intDigits.length ∧ intDigits.headD '0' = '0' then none
  else
    let ip : Rat := (digitsToNat intDigits : Nat)
    let (frac, l3) : Rat × List Char := match l2 with
      | '.' :: r =>
        let fd := r.takeWhile isDigitCh
        ((digitsToNat fd : Rat) / ((10 : Rat) ^ fd.length), r.dropWhile isDigitCh)
      | _ => (0, l2)
    let fracBad : Bool := match l2 with
      | '.' :: r => (r.takeWhile isDigitCh).isEmpty
      | _ => false
    if fracBad then none
    else
      let (expOk, expVal, l4) : Bool × Int × List Char := match l3 with
        | 'e' :: r | 'E' :: r =>
          let (esign, r1) : Int × List Char := match r with
            | '+' :: r2 => (1, r2)
            | '-' :: r2 => (-1, r2)
            | _ => (1, r)
          let ed := r1.takeWhile isDigitCh
          if ed.isEmpty then (false, 0, r1)
          else (true, esign * (digitsToNat ed : Int), r1.dropWhile isDigitCh)
        | _ => (true, 0, l3)
      if expOk then
        let mag : Rat := (ip + frac) * (10 : Rat) ^ expVal
        some ((if neg then -mag else mag), l4)
      else none

/-- Parser modes: a plain value, the tail of an array after at least
one element is pending, or the members of an object. -/
inductive PMode where
  | value : PMode
  | elems : List PyVal → PMode
  | members : List (String × PyVal) → PMode

/-- Recursive-descent JSON parser, structurally recursive on fuel. -/
def parseJ : Nat → PMode → List Char → Option (PyVal × List Char)
  | 0, _, _ => none
  | fuel + 1, .value, l =>
    match l.dropWhile jsonWsChar with
    | [] => none
    | c :: rest =>
      if c = '"' then
        match parseStrBody rest with
        | some (cs, r) => some (.str ⟨cs⟩, r)
        | none => none
      else if c = '{' then
        match rest.dropWhile jsonWsChar with
        | '}' :: r => some (.dict [], r)
        | _ => parseJ fuel (.members []) rest
      else if c = '[' then
        match rest.dropWhile jsonWsChar with
        | ']' :: r => some (.list [], r)
        | _ => parseJ fuel (.elems []) rest
      else if c = 't' then
        match rest with
        | 'r' :: 'u' :: 'e' :: r => some (.bool true, r)
        | _ => none
      else if c = 'f' then
        match rest with
        | 'a' :: 'l' :: 's' :: 'e' :: r => some (.bool false, r)
        | _ => none
      else if c = 'n' then
        match rest with
        | 'u' :: 'l' :: 'l' :: r => some (.null, r)
        | _ => none
      else
        match parseNumber (c :: rest) with
        | some (q, r) => some (.num q, r)
        | none => none
  | fuel + 1, .elems acc, l =>
    match parseJ fuel .value l with
    | some (v, r) =>
      match r.dropWhile jsonWsChar with
      | ',' :: r2 => parseJ fuel (.elems (acc ++ [v])) r2
      | ']' :: r2 => some (.list (acc ++ [v]), r2)
      | _ => none
    | none => none
  | fuel + 1, .members acc, l =>
    match l.dropWhile jsonWsChar with
    | '"' :: rest =>
      match parseStrBody rest with
      | some (kcs, r) =>
        match r.dropWhile jsonWsChar with
        | ':' :: r2 =>
          match parseJ fuel .value r2 with
          | some (v, r3) =>
            match r3.dropWhile jsonWsChar with
            | ',' :: r4 => parseJ fuel (.members (dictInsert acc ⟨kcs⟩ v)) r4
            | '}' :: r4 => some (.dict (dictInsert acc ⟨kcs⟩ v), r4)
            | _ => none
          | none => none
        | _ => none
      | none => none
    | _ => none

/-- Model of Python `json.loads`: parse one value, then require only
whitespace to remain.  The fuel is ample for any input of the given
length. -/
def json_loads (s : String) : Option PyVal :=
  match parseJ (2 * s.data.length + 4) .value s.data with
  | some (v, r) => if (r.dropWhile jsonWsChar).isEmpty then some v else none
  | none => none

/-! ## The structuring step (`LangChainProcessor.process_ocr_text`) -/

/-- The fixed parse-failure message of the structuring step. -/
def parseFailureMessage : String := "Failed to parse structured data"

/-- The fence-stripping clean-up applied to the raw model output:
`strip`, drop a leading literal ` ```json ` (7 characters), drop a
trailing ` ``` `. -/
def cleanModelOutput (s : String) : String :=
  let r := pyStrip s
  let r := if pyStartsWith r "```json" then pyDrop r 7 else r
  if pyEndsWith r "```" then pyDropRight r 3 else r

/-- `LangChainProcessor.process_ocr_text`.  The model call is an
environment parameter: `.ok out` is the joined output stream,
`.error e` is any exception raised before parsing (with `str(e) = e`).
The function is total: every failure is converted into a fallback
object, mirroring the Python `try`/`except` structure. -/
def process_ocr_text (text : String) (model : Except String String) : PyVal :=
  match model with
  | .error e => .dict [("error", .str e), ("raw_text", .str text)]
  | .ok output =>
    let result := cleanModelOutput output
    match json_loads (pyStrip result) with
    | some v => v
    | none => .dict [("error", .str parseFailureMessage), ("raw_text", .str text)]

/-! ## Textract blocks and `TextractService` -/

/-- A Textract `Geometry.BoundingBox` dict. -/
structure TextractBB where
  left : Rat
  top : Rat
  width : Rat
  height : Rat
deriving DecidableEq

/-- A Textract `Geometry` dict (`'BoundingBox' in geometry` is the
inner option). -/
structure Geometry where
  boundingBox : Option TextractBB
deriving DecidableEq

/-- A `Relationships` entry: `relationship['Type']` and
`relationship['Ids']`. -/
structure Relationship where
  relType : String
  ids : List String
deriving DecidableEq

/-- A Textract block.  Optional fields model `.get` defaults and
`'…' in block` membership tests; `BlockType` and `Id` are always
present in real responses and are accessed by direct indexing. -/
structure Block where
  id : String
  blockType : String
  text : Option String
  entityTypes : List String
  relationships : Option (List Relationship)
  confidence : Option Rat
  geometry : Option Geometry
deriving DecidableEq

/-- The schema `BoundingBox` (`app/schemas/pdf.py`). -/
structure BoundingBox where
  x : Rat
  y : Rat
  width : Rat
  height : Rat
  page : Int
  text : String
  confidence : Rat
deriving DecidableEq

/-- The schema `OCRResult` (`app/schemas/pdf.py`). -/
structure OCRResult where
  text : String
  bounding_boxes : List BoundingBox
  structured_data : Option (List (String × PyVal))

/-- `block_map = {block['Id']: block for block in blocks}`. -/
def buildBlockMap (blocks : List Block) : List (String × Block) :=
  blocks.foldl (fun m b => dictInsert m b.id b) []

/-- `block_map[i]`: a missing key raises `KeyError(i)`, whose `str`
is the quoted key. -/
def lookupBlock (m : List (String × Block)) (i : String) : Except String Block :=
  match dictGet? m i with
  | some b => .ok b
  | none => .error ("'" ++ i ++ "'")

/-- One iteration of the inner `for child_id in relationship['Ids']`
loop: dereference the block map and append the word text plus a
trailing space. -/
def wordAppendStep (m : List (String × Block)) (acc : String) (cid : String) :
    Except String String := do
  let cb ← lookupBlock m cid
  pure (if cb.blockType = "WORD" then acc ++ cb.text.getD "" ++ " " else acc)

/-- One iteration of a `for relationship in …['Relationships']` loop
that collects CHILD words. -/
def childWordsStep (m : List (String × Block)) (acc : String) (rel : Relationship) :
    Except String String :=
  if rel.relType = "CHILD" then rel.ids.foldlM (wordAppendStep m) acc else pure acc

/-- The key-text loop of `_extract_form_data`: collect CHILD words of
the key block (no `Relationships` key means no loop runs). -/
def childWordsText (m : List (String × Block)) (rels : Option (List Relationship)) :
    Except String String :=
  match rels with
  | none => .ok ""
  | some rs => rs.foldlM (childWordsStep m) ""

/-- Collect the CHILD words of one value block into the running value
text (`if 'Relationships' in value_block` guard included). -/
def valueChildText (m : List (String × Block)) (acc : String) (vb : Block) :
    Except String String :=
  match vb.relationships with
  | none => pure acc
  | some vrels => vrels.foldlM (childWordsStep m) acc

/-- One iteration of `for value_id in relationship['Ids']`:
dereference the value block and collect its CHILD words. -/
def valueIdStep (m : List (String × Block)) (acc : String) (vid : String) :
    Except String String := do
  let vb ← lookupBlock m vid
  valueChildText m acc vb

/-- One iteration of the value loop over the key block's
relationships: only VALUE relationships contribute. -/
def valueRelStep (m : List (String × Block)) (acc : String) (rel : Relationship) :
    Except String String :=
  if rel.relType = "VALUE" then rel.ids.foldlM (valueIdStep m) acc else pure acc

/-- The value-text loop of `_extract_form_data`. -/
def valueWordsText (m : List (String × Block)) (rels : Option (List Relationship)) :
    Except String String :=
  match rels with
  | none => .ok ""
  | some rs => rs.foldlM (valueRelStep m) ""

/-- The body of `_extract_form_data`'s main loop for one
`(block_id, block)` item of the block map. -/
def extractStep (m : List (String × Block)) (acc : List (String × String))
    (entry : String × Block) : Except String (List (String × String)) :=
  let b := entry.2
  if b.blockType = "KEY_VALUE_SET" ∧ b.entityTypes = ["KEY"] then do
    let kt ← childWordsText m b.relationships
    let keyText := pyStrip kt
    let vt ← valueWordsText m b.relationships
    let valueText := pyStrip vt
    pure (if keyText ≠ "" ∧ valueText ≠ "" then dictInsert acc keyText valueText else acc)
  else pure acc

/-- `TextractService._extract_form_data`.  The iteration is over the
items of the block map (deduplicated by id, insertion order); a
`KeyError` from a dangling identifier propagates as `.error`. -/
def extract_form_data (blocks : List Block) : Except String (List (String × String)) :=
  let m := buildBlockMap blocks
  m.foldlM (extractStep m) []

/-- The LINE-block pass of `_process_textract_response`: accumulate
full text and bounding boxes. -/
def lineStep (acc : String × List BoundingBox) (b : Block) :
    String × List BoundingBox :=
  if b.blockType = "LINE" then
    let t := b.text.getD ""
    let full := acc.1 ++ t ++ "\n"
    match b.geometry with
    | some g =>
      match g.boundingBox with
      | some bb =>
        (full, acc.2 ++ [⟨bb.left, bb.top, bb.width, bb.height, 1, t, b.confidence.getD 0⟩])
      | none => (full, acc.2)
    | none => (full, acc.2)
  else acc

/-- The Textract response: `response.get('Blocks', [])`. -/
structure TextractResponse where
  blocks : Option (List Block)

/-- `TextractService._process_textract_response`. -/
def process_textract_response (resp : TextractResponse) : Except String OCRResult := do
  let blocks := resp.blocks.getD []
  let r := blocks.foldl lineStep ("", [])
  let formData ← extract_form_data blocks
  pure ⟨r.1, r.2, some (formData.map (fun p => (p.1, PyVal.str p.2)))⟩

/-- The fixed error message stored for unsupported documents. -/
def unsupportedDocMessage : String :=
  "An error occurred (UnsupportedDocumentException) when calling the AnalyzeDocument operation: Request has unsupported document format"

/-- What the raw Textract call did: returned a response, raised a
`botocore` `ClientError` with the given `str(e)`, or raised another
exception. -/
inductive AnalyzeOutcome where
  | response : TextractResponse → AnalyzeOutcome
  | clientError : String → AnalyzeOutcome
  | otherError : String → AnalyzeOutcome

/-- `TextractService.analyze_document`: a `ClientError` whose string
contains `UnsupportedDocumentException` becomes a soft-error
`OCRResult`; every other exception (including a `KeyError` raised
while processing the response) is re-raised. -/
def analyze_document : AnalyzeOutcome → Except String OCRResult
  | .response r => process_textract_response r
  | .clientError s =>
    if containsSub s "UnsupportedDocumentException" then
      .ok ⟨"", [], some [("error", .str unsupportedDocMessage)]⟩
    else .error s
  | .otherError s => .error s

/-! ## The background pipeline (`process_pdf_background`) -/

/-- The environment of one pipeline run: the Textract outcome, the
model-call outcome for the structuring step, and the outcome of the
n-th database write attempt of the run (`none` = commit succeeds,
`some e` = the attempt raises with `str(e) = e`). -/
structure PipelineEnv where
  textract : AnalyzeOutcome
  llm : Except String String
  dbOut : Nat → Option String

/-- Observable outcome of one pipeline run: the final value of the
document's `ocr_data` column (`none` = never successfully written)
and how many write attempts each of the three persistence sites made.
`structuringInvoked` records whether `process_ocr_text` was called. -/
structure RunTrace where
  persisted : Option PyVal
  structuringInvoked : Bool
  softAttempts : Nat
  successAttempts : Nat
  hardAttempts : Nat

/-- The `while retry_count < max_retries and not success` loop with
`max_retries = 3`, unrolled: up to three attempts starting at global
attempt index `k`; on the third failure the last database error is
re-raised.  Returns the loop outcome and the number of attempts
made. -/
def retryPersist (db : Nat → Option String) (k : Nat) : Except String Unit × Nat :=
  match db k with
  | none => (.ok (), 1)
  | some _ =>
    match db (k + 1) with
    | none => (.ok (), 2)
    | some _ =>
      match db (k + 2) with
      | none => (.ok (), 3)
      | some e => (.error e, 3)

/-- `if ocr_result.structured_data and "error" in
ocr_result.structured_data` (Python truthiness: `None` and the empty
dict are falsy). -/
def softErrCond (ocr : OCRResult) : Bool :=
  match ocr.structured_data with
  | none => false
  | some d => !d.isEmpty && dictHasKey d "error"

/-- `box.dict()` for the success payload. -/
def bboxToVal (b : BoundingBox) : PyVal :=
  .dict [("x", .num b.x), ("y", .num b.y), ("width", .num b.width),
         ("height", .num b.height), ("page", .num (b.page : Rat)),
         ("text", .str b.text), ("confidence", .num b.confidence)]

/-- The success-path `ocr_data` payload. -/
def successPayload (ocr : OCRResult) (sd : PyVal) : PyVal :=
  .dict [("text", .str ocr.text),
         ("structured_data", sd),
         ("bounding_boxes", .list (ocr.bounding_boxes.map bboxToVal))]

/-- The outer `except Exception as e` handler: one single attempt to
write `{"error": str(e)}`; its own failure is logged and swallowed. -/
def hardWriteTrace (db : Nat → Option String) (k : Nat) (msg : String)
    (invoked : Bool) (soft succ : Nat) : RunTrace :=
  match db k with
  | none => ⟨some (.dict [("error", .str msg)]), invoked, soft, succ, 1⟩
  | some _ => ⟨none, invoked, soft, succ, 1⟩

/-- `process_pdf_background`: run Textract, branch on the soft-error
condition, otherwise run the structuring step and persist the success
payload; any exception escaping the `try` block is converted into a
single best-effort hard-error write. -/
def runPipeline (env : PipelineEnv) : RunTrace :=
  match analyze_document env.textract with
  | .error e => hardWriteTrace env.dbOut 0 e false 0 0
  | .ok ocr =>
    if softErrCond ocr then
      let payload := PyVal.dict (ocr.structured_data.getD [])
      match retryPersist env.dbOut 0 with
      | (.ok _, n) => ⟨some payload, false, n, 0, 0⟩
      | (.error e, n) => hardWriteTrace env.dbOut n e false n 0
    else
      let sd := process_ocr_text ocr.text env.llm
      let payload := successPayload ocr sd
      match retryPersist env.dbOut 0 with
      | (.ok _, n) => ⟨some payload, true, 0, n, 0⟩
      | (.error e, n) => hardWriteTrace env.dbOut n e true 0 n

/-! ## The OCR retrieval endpoint (`get_pdf_ocr`) -/

/-- A FastAPI `HTTPException` with status code and detail. -/
structure HTTPExc where
  status : Nat
  detail : String
deriving DecidableEq

/-- The list comprehension `[BoundingBox(**box) for box in
ocr_data.get("bounding_boxes", [])]` in `get_pdf_ocr`.  `pdfs.py`
imports only `PDFDocumentResponse` and `OCRResult` from
`app.schemas.pdf`, so the name `BoundingBox` is undefined in that
module: the comprehension body raises `NameError` as soon as it runs,
that is, for every non-empty iterable.  An empty iterable never runs
the body and yields `[]`; a non-iterable stored value raises
`TypeError` when the comprehension starts. -/
def boxesFromVal (v : PyVal) : Except String (List BoundingBox) :=
  match v with
  | .list [] => .ok []
  | .list (_ :: _) => .error "name 'BoundingBox' is not defined"
  | .str "" => .ok []
  | .str _ => .error "name 'BoundingBox' is not defined"
  | .dict [] => .ok []
  | .dict (_ :: _) => .error "name 'BoundingBox' is not defined"
  | .num _ => .error "'float' object is not iterable"
  | .bool _ => .error "'bool' object is not iterable"
  | .null => .error "'NoneType' object is not iterable"

/-- Pydantic validation of the `text` field. -/
def pvToStr (v : PyVal) : Except String String :=
  match v with
  | .str s => .ok s
  | _ => .error "text is not a string"

/-- Pydantic validation of the optional `structured_data` field;
a missing key defaults to the empty dict. -/
def pvToStructured (v : Option PyVal) : Except String (Option (List (String × PyVal))) :=
  match v with
  | none => .ok (some [])
  | some (.dict sd) => .ok (some sd)
  | some .null => .ok none
  | some _ => .error "structured_data is not a dict"

/-- The `get_pdf_ocr` endpoint.  The argument is the lookup result:
`none` = no such document for this user, `some none` = document found
with `ocr_data` still unset (NULL), `some (some d)` = document found
with stored payload `d`.  Errors raised while rebuilding the
`OCRResult` are turned into a 500 by the outer handler. -/
def get_pdf_ocr (pdf : Option (Option (List (String × PyVal)))) :
    Except HTTPExc OCRResult :=
  match pdf with
  | none => .error ⟨404, "PDF not found"⟩
  | some none => .error ⟨404, "OCR results not available yet"⟩
  | some (some d) =>
    if d.isEmpty then .error ⟨404, "OCR results not available yet"⟩
    else
      match (do
        let boxes ← boxesFromVal (dictGetD d "bounding_boxes" (.list []))
        let text ← pvToStr (dictGetD d "text" (.str ""))
        let sd ← pvToStructured (dictGet? d "structured_data")
        pure (OCRResult.mk text boxes sd) : Except String OCRResult) with
      | .ok r => .ok r
      | .error e => .error ⟨500, e⟩

/-! ## Fixtures and auxiliary definitions used by the theorems -/

/-- Whether an `Except` computation completed without raising. -/
def exOk {ε α : Type} : Except ε α → Bool
  | .ok _ => true
  | .error _ => false

/-- A KEY block has a CHILD or VALUE relationship listing a target
identifier that does not resolve in the block map. -/
def keyBlockHasDangling (m : List (String × Block)) (b : Block) : Bool :=
  match b.relationships with
  | none => false
  | some rels => rels.any (fun rel =>
      (rel.relType = "CHILD" || rel.relType = "VALUE") &&
      rel.ids.any (fun i => (dictGet? m i).isNone))

/-- A WORD block with the given id and text. -/
def wordBlock (i t : String) : Block := ⟨i, "WORD", some t, [], none, none, none⟩

/-- KEY block whose CHILD relationship references the missing id
`w-missing`. -/
def c1KeyBlock : Block :=
  ⟨"k1", "KEY_VALUE_SET", none, ["KEY"],
   some [⟨"CHILD", ["w-missing"]⟩, ⟨"VALUE", ["v1"]⟩], none, none⟩

def c1ValueBlock : Block :=
  ⟨"v1", "KEY_VALUE_SET", none, ["VALUE"], some [⟨"CHILD", ["w1"]⟩], none, none⟩

/-- A response whose only unresolved identifier is the CHILD target
`w-missing` of the KEY block. -/
def c1Blocks : List Block := [c1KeyBlock, c1ValueBlock, wordBlock "w1" "John"]

/-- KEY block with two VALUE targets. -/
def c4KeyBlock : Block :=
  ⟨"k1", "KEY_VALUE_SET", none, ["KEY"],
   some [⟨"CHILD", ["w0"]⟩, ⟨"VALUE", ["v1", "v2"]⟩], none, none⟩

def c4V1 : Block :=
  ⟨"v1", "KEY_VALUE_SET", none, ["VALUE"], some [⟨"CHILD", ["w1"]⟩], none, none⟩

def c4V2 : Block :=
  ⟨"v2", "KEY_VALUE_SET", none, ["VALUE"], some [⟨"CHILD", ["w2"]⟩], none, none⟩

/-- Blocks whose KEY block has VALUE targets `v1` (word `A`) and `v2`
(word `B`), in that order. -/
def c4Blocks : List Block :=
  [c4KeyBlock, c4V1, c4V2, wordBlock "w0" "K", wordBlock "w1" "A", wordBlock "w2" "B"]

def c4BlockMap : List (String × Block) := buildBlockMap c4Blocks

def c4rel1 : List Relationship := [⟨"VALUE", ["v1"]⟩]

def c4rel2 : List Relationship := [⟨"VALUE", ["v2"]⟩]

/-- KEY block with CHILD words `Name`, `:` and one VALUE target. -/
def c8KeyBlock : Block :=
  ⟨"k1", "KEY_VALUE_SET", none, ["KEY"],
   some [⟨"CHILD", ["w1", "w2"]⟩, ⟨"VALUE", ["v1"]⟩], none, none⟩

def c8ValueBlock : Block :=
  ⟨"v1", "KEY_VALUE_SET", none, ["VALUE"], some [⟨"CHILD", ["w3"]⟩], none, none⟩

def c8Blocks : List Block :=
  [c8KeyBlock, c8ValueBlock, wordBlock "w1" "Name", wordBlock "w2" ":", wordBlock "w3" "John"]

/-- A KEY_VALUE_SET block whose EntityTypes contains KEY alongside
another entry. -/
def c9Block : Block :=
  ⟨"k9", "KEY_VALUE_SET", none, ["KEY", "VALUE"], some [⟨"CHILD", ["w9"]⟩], none, none⟩

/-- Every database write attempt of the run raises with message `m`. -/
def dbFailAll (m : String) : Nat → Option String := fun _ => some m

/-- The first three write attempts raise with message `m`; every later
attempt succeeds. -/
def dbFailThenOk (m : String) : Nat → Option String :=
  fun k => if k < 3 then some m else none

/-- Unsupported-document run whose write attempts all fail. -/
def envSoftFailAll : PipelineEnv :=
  ⟨.clientError unsupportedDocMessage, .ok "x", dbFailAll "db down"⟩

/-- Unsupported-document run whose soft-error write fails three times
and whose following attempt would succeed. -/
def envSoftFailThenOk : PipelineEnv :=
  ⟨.clientError unsupportedDocMessage, .ok "x", dbFailThenOk "db down"⟩

/-- A Textract response with no blocks (clean success path). -/
def emptyTextractResponse : TextractResponse := ⟨some []⟩

/-- Success-path run whose write attempts all fail. -/
def envSuccFailAll : PipelineEnv :=
  ⟨.response emptyTextractResponse, .ok "not json", dbFailAll "db down"⟩

/-- Success-path run whose success write fails three times and whose
following attempt would succeed. -/
def envSuccFailThenOk (m : String) : PipelineEnv :=
  ⟨.response emptyTextractResponse, .ok "not json", dbFailThenOk m⟩

/-- A model output opening with a bare fence (no `json` tag). -/
def bareFencedOutput : String := "```\n\x7b\"a\": \"1\"\x7d\n```"

/-- A model output wrapped in a proper ` ```json … ``` ` fence. -/
def jsonFencedOutput : String := "```json \x7b\"k\": \"v\"\x7d```"

/-! ## Helper lemmas -/

theorem error_bind {ε α β : Type} (e : ε) (f : α → Except ε β) :
    (Except.error e >>= f) = Except.error e := rfl

theorem ok_bind {ε α β : Type} (a : α) (f : α → Except ε β) :
    (Except.ok a >>= f) = f a := rfl

/-- If one element of the list makes the step fail whatever the
accumulator is, the whole `foldlM` fails. -/
theorem foldlM_notOk {α β : Type} (f : β → α → Except String β) (l : List α) (x : α)
    (hx : x ∈ l) (hf : ∀ b, exOk (f b x) = false) :
    ∀ b0 : β, exOk (l.foldlM f b0) = false := by
  induction l with
  | nil => cases hx
  | cons y t ih =>
    intro b0
    rw [List.foldlM_cons]
    rcases List.mem_cons.mp hx with h | h
    · subst h
      cases he : f b0 x with
      | error e => rfl
      | ok a => have := hf b0; rw [he] at this; exact absurd this (by simp [exOk])
    · cases he : f b0 y with
      | error e => rfl
      | ok b2 => exact ih h b2

/-- If each step only appends to the accumulator, so does the whole
`foldlM`. -/
theorem foldlM_extends {α : Type} (f : String → α → Except String String)
    (hf : ∀ acc x out, f acc x = .ok out → ∃ t, out = acc ++ t) :
    ∀ (l : List α) (acc out : String), l.foldlM f acc = .ok out → ∃ t, out = acc ++ t := by
  intro l
  induction l with
  | nil =>
    intro acc out h
    exact ⟨"", by cases h; simp⟩
  | cons x t ih =>
    intro acc out h
    rw [List.foldlM_cons] at h
    cases he : f acc x with
    | error e => rw [he, error_bind] at h; cases h
    | ok mid =>
      rw [he, ok_bind] at h
      obtain ⟨t1, h1⟩ := hf acc x mid he
      obtain ⟨t2, h2⟩ := ih mid out h
      exact ⟨t1 ++ t2, by rw [h2, h1, String.append_assoc]⟩

theorem wordAppendStep_extends (m : List (String × Block)) :
    ∀ (acc : String) (cid : String) (out : String),
      wordAppendStep m acc cid = .ok out → ∃ t, out = acc ++ t := by
  intro acc cid out h
  unfold wordAppendStep at h
  cases he : lookupBlock m cid with
  | error e => rw [he, error_bind] at h; cases h
  | ok cb =>
    rw [he, ok_bind] at h
    cases h
    split
    · exact ⟨cb.text.getD "" ++ " ", String.append_assoc _ _ _⟩
    · exact ⟨"", by simp⟩

theorem childWordsStep_extends (m : List (String × Block)) :
    ∀ (acc : String) (rel : Relationship) (out : String),
      childWordsStep m acc rel = .ok out → ∃ t, out = acc ++ t := by
  intro acc rel out h
  unfold childWordsStep at h
  split at h
  · exact foldlM_extends _ (wordAppendStep_extends m) rel.ids acc out h
  · cases h; exact ⟨"", by simp⟩

theorem valueChildText_extends (m : List (String × Block)) :
    ∀ (acc : String) (vb : Block) (out : String),
      valueChildText m acc vb = .ok out → ∃ t, out = acc ++ t := by
  intro acc vb out h
  unfold valueChildText at h
  split at h
  · cases h; exact ⟨"", by simp⟩
  · exact foldlM_extends _ (childWordsStep_extends m) _ acc out h

theorem valueIdStep_extends (m : List (String × Block)) :
    ∀ (acc : String) (vid : String) (out : String),
      valueIdStep m acc vid = .ok out → ∃ t, out = acc ++ t := by
  intro acc vid out h
  unfold valueIdStep at h
  cases he : lookupBlock m vid with
  | error e => rw [he, error_bind] at h; cases h
  | ok vb =>
    rw [he, ok_bind] at h
    exact valueChildText_extends m acc vb out h

theorem valueRelStep_extends (m : List (String × Block)) :
    ∀ (acc : String) (rel : Relationship) (out : String),
      valueRelStep m acc rel = .ok out → ∃ t, out = acc ++ t := by
  intro acc rel out h
  unfold valueRelStep at h
  split at h
  · exact foldlM_extends _ (valueIdStep_extends m) rel.ids acc out h
  · cases h; exact ⟨"", by simp⟩

theorem retryPersist_snd_le (db : Nat → Option String) (k : Nat) :
    (retryPersist db k).2 ≤ 3 := by
  unfold retryPersist
  rcases db k with _ | e0
  · exact by norm_num
  · rcases db (k + 1) with _ | e1
    · exact by norm_num
    · rcases db (k + 2) with _ | e2 <;> norm_num

theorem hardWriteTrace_fields (db : Nat → Option String) (k : Nat) (msg : String)
    (invoked : Bool) (soft succ : Nat) :
    (hardWriteTrace db k msg invoked soft succ).softAttempts = soft ∧
    (hardWriteTrace db k msg invoked soft succ).successAttempts = succ ∧
    (hardWriteTrace db k msg invoked soft succ).hardAttempts = 1 ∧
    (hardWriteTrace db k msg invoked soft succ).structuringInvoked = invoked := by
  unfold hardWriteTrace
  rcases db k with _ | e <;> exact ⟨rfl, rfl, rfl, rfl⟩

/-- Attempt-count bounds of a pipeline run: the soft-error and the
success write make at most 3 attempts, the hard-error write at most
one. -/
theorem runPipeline_attempt_bounds (env : PipelineEnv) :
    (runPipeline env).softAttempts ≤ 3 ∧
    (runPipeline env).successAttempts ≤ 3 ∧
    (runPipeline env).hardAttempts ≤ 1 := by
  unfold runPipeline
  split
  · rename_i e heq
    obtain ⟨h1, h2, h3, _⟩ := hardWriteTrace_fields env.dbOut 0 e false 0 0
    rw [h1, h2, h3]
    exact ⟨by norm_num, by norm_num, by norm_num⟩
  · rename_i ocr heq0
    split
    · split
      · rename_i a n heq
        have hn := retryPersist_snd_le env.dbOut 0
        rw [heq] at hn
        exact ⟨hn, by norm_num, by norm_num⟩
      · rename_i e n heq
        have hn := retryPersist_snd_le env.dbOut 0
        rw [heq] at hn
        obtain ⟨h1, h2, h3, _⟩ := hardWriteTrace_fields env.dbOut n e false n 0
        rw [h1, h2, h3]
        exact ⟨hn, by norm_num, by norm_num⟩
    · split
      · rename_i a n heq
        have hn := retryPersist_snd_le env.dbOut 0
        rw [heq] at hn
        exact ⟨by norm_num, hn, by norm_num⟩
      · rename_i e n heq
        have hn := retryPersist_snd_le env.dbOut 0
        rw [heq] at hn
        obtain ⟨h1, h2, h3, _⟩ := hardWriteTrace_fields env.dbOut n e true 0 n
        rw [h1, h2, h3]
        exact ⟨by norm_num, hn, by norm_num⟩

theorem wordAppendStep_err (m : List (String × Block)) (acc : String) (cid : String)
    (h : dictGet? m cid = none) : exOk (wordAppendStep m acc cid) = false := by
  unfold wordAppendStep lookupBlock
  rw [h]
  rfl

theorem childWordsStep_err (m : List (String × Block)) (acc : String)
    (rel : Relationship) (hrel : rel.relType = "CHILD") (i : String) (hi : i ∈ rel.ids)
    (hmiss : dictGet? m i = none) : exOk (childWordsStep m acc rel) = false := by
  unfold childWordsStep
  rw [if_pos hrel]
  exact foldlM_notOk _ rel.ids i hi (fun b => wordAppendStep_err m b i hmiss) acc

theorem childWordsText_err (m : List (String × Block)) (rels : List Relationship)
    (rel : Relationship) (hmem : rel ∈ rels) (hrel : rel.relType = "CHILD")
    (i : String) (hi : i ∈ rel.ids) (hmiss : dictGet? m i = none) :
    exOk (childWordsText m (some rels)) = false := by
  unfold childWordsText
  exact foldlM_notOk _ rels rel hmem (fun b => childWordsStep_err m b rel hrel i hi hmiss) ""

theorem valueIdStep_err (m : List (String × Block)) (acc : String) (vid : String)
    (h : dictGet? m vid = none) : exOk (valueIdStep m acc vid) = false := by
  unfold valueIdStep lookupBlock
  rw [h]
  rfl

theorem valueRelStep_err (m : List (String × Block)) (acc : String)
    (rel : Relationship) (hrel : rel.relType = "VALUE") (i : String) (hi : i ∈ rel.ids)
    (hmiss : dictGet? m i = none) : exOk (valueRelStep m acc rel) = false := by
  unfold valueRelStep
  rw [if_pos hrel]
  exact foldlM_notOk _ rel.ids i hi (fun b => valueIdStep_err m b i hmiss) acc

theorem valueWordsText_err (m : List (String × Block)) (rels : List Relationship)
    (rel : Relationship) (hmem : rel ∈ rels) (hrel : rel.relType = "VALUE")
    (i : String) (hi : i ∈ rel.ids) (hmiss : dictGet? m i = none) :
    exOk (valueWordsText m (some rels)) = false := by
  unfold valueWordsText
  exact foldlM_notOk _ rels rel hmem (fun b => valueRelStep_err m b rel hrel i hi hmiss) ""

/-- Processing a KEY block one of whose CHILD or VALUE relationships
lists an unresolved identifier raises, whatever the accumulated form
data is. -/
theorem extractStep_err (m : List (String × Block)) (acc : List (String × String))
    (entry : String × Block) (hbt : entry.2.blockType = "KEY_VALUE_SET")
    (het : entry.2.entityTypes = ["KEY"])
    (hd : keyBlockHasDangling m entry.2 = true) :
    exOk (extractStep m acc entry) = false := by
  unfold extractStep
  rw [if_pos ⟨hbt, het⟩]
  unfold keyBlockHasDangling at hd
  cases hrels : entry.2.relationships with
  | none => rw [hrels] at hd; cases hd
  | some rels =>
    rw [hrels] at hd
    obtain ⟨rel, hmem, hprop⟩ := List.any_eq_true.mp hd
    rw [Bool.and_eq_true] at hprop
    obtain ⟨htype, hdang⟩ := hprop
    obtain ⟨i, hi, hmiss⟩ := List.any_eq_true.mp hdang
    rw [Option.isNone_iff_eq_none] at hmiss
    cases hc : childWordsText m (some rels) with
    | error e => rfl
    | ok kt =>
      rw [Bool.or_eq_true] at htype
      rcases htype with hch | hv
      · have := childWordsText_err m rels rel hmem (of_decide_eq_true hch) i hi hmiss
        rw [hc] at this
        exact absurd this (by simp [exOk])
      · cases hvv : valueWordsText m (some rels) with
        | error e => rfl
        | ok vt =>
          have := valueWordsText_err m rels rel hmem (of_decide_eq_true hv) i hi hmiss
          rw [hvv] at this
          exact absurd this (by simp [exOk])

/-! ## Claim theorems -/

/-- C1 (counterexample): the claim "a CHILD or VALUE relationship
target that does not resolve in the block index is skipped and the
Form Pair Reconstructor completes without a fatal error" is false:
on `c1Blocks`, whose KEY block's CHILD relationship lists the
unresolved id `w-missing`, `_extract_form_data` dereferences the
missing entry and raises `KeyError('w-missing')`. -/
theorem c1_counterexample : extract_form_data c1Blocks = Except.error "'w-missing'" := rfl

/-- C1 (amended): a dangling CHILD or VALUE target identifier of a
processed KEY-role KEY_VALUE_SET block is a fatal error: the
reconstructor dereferences the block map directly, so the whole
`_extract_form_data` call raises instead of skipping the entry. -/
theorem c1_dangling_reference_fatal (blocks : List Block) (entry : String × Block)
    (hmem : entry ∈ buildBlockMap blocks)
    (hbt : entry.2.blockType = "KEY_VALUE_SET")
    (het : entry.2.entityTypes = ["KEY"])
    (hd : keyBlockHasDangling (buildBlockMap blocks) entry.2 = true) :
    exOk (extract_form_data blocks) = false := by
  unfold extract_form_data
  exact foldlM_notOk _ (buildBlockMap blocks) entry hmem
    (fun acc => extractStep_err (buildBlockMap blocks) acc entry hbt het hd) []

/-- C1 witness: the amended theorem applied to the concrete dangling
response `c1Blocks`. -/
theorem c1_dangling_reference_fatal_witness :
    (("k1", c1KeyBlock) ∈ buildBlockMap c1Blocks) ∧
    keyBlockHasDangling (buildBlockMap c1Blocks) c1KeyBlock = true ∧
    exOk (extract_form_data c1Blocks) = false :=
  ⟨by decide, rfl,
   c1_dangling_reference_fatal c1Blocks ("k1", c1KeyBlock) (by decide) rfl rfl rfl⟩

/-- C4 (counterexample): the claim "for a KEY block with more than one
VALUE target the recorded value equals the words of the last-processed
value block alone" is false: on `c4Blocks` the VALUE targets `v1`
(word `A`) and `v2` (word `B`) produce the value `A B`, not `B` —
earlier value blocks' words are kept. -/
theorem c4_counterexample :
    extract_form_data c4Blocks = .ok [("K", "A B")] ∧ "A B" ≠ "B" :=
  ⟨rfl, by decide⟩

/-- C4 (amended): the value loop concatenates: processing the VALUE
relationships of a list `r1 ++ r2` continues from the text already
accumulated over `r1` (so every earlier value block's words remain),
and each step only ever appends to the accumulated value text;
last-write-wins applies to duplicate keys of the form-data dict, not
to multiple VALUE targets. -/
theorem c4_value_concatenation :
    (∀ (m : List (String × Block)) (r1 r2 : List Relationship) (s1 : String),
      r1.foldlM (valueRelStep m) "" = .ok s1 →
      (r1 ++ r2).foldlM (valueRelStep m) "" = r2.foldlM (valueRelStep m) s1) ∧
    (∀ (m : List (String × Block)) (rels : List Relationship) (acc out : String),
      rels.foldlM (valueRelStep m) acc = .ok out → ∃ t, out = acc ++ t) ∧
    (∀ (d : List (String × String)) (k v : String),
      dictGet? (dictInsert d k v) k = some v) := by
  refine ⟨?_, ?_, ?_⟩
  · intro m r1 r2 s1 h
    rw [List.foldlM_append, h, ok_bind]
  · intro m rels acc out h
    exact foldlM_extends _ (valueRelStep_extends m) rels acc out h
  · intro d k v
    induction d with
    | nil => simp [dictInsert, dictGet?]
    | cons p t ih =>
      unfold dictInsert
      by_cases hk : p.1 = k
      · rw [if_pos hk]; simp [dictGet?]
      · rw [if_neg hk]; simp only [dictGet?, if_neg hk]; exact ih

/-- C4 witness: the amended theorem applied to the two VALUE
relationships of `c4Blocks`. -/
theorem c4_value_concatenation_witness :
    ((c4rel1 ++ c4rel2).foldlM (valueRelStep c4BlockMap) "" =
      c4rel2.foldlM (valueRelStep c4BlockMap) "A ") ∧
    dictGet? (dictInsert [] "K" "A B") "K" = some "A B" :=
  ⟨c4_value_concatenation.1 c4BlockMap c4rel1 c4rel2 "A " rfl,
   c4_value_concatenation.2.2 [] "K" "A B"⟩

/-- C8 (confirmed): key and value texts are built by appending each
WORD's text plus a trailing space and then stripping, with no
punctuation normalization — on `c8Blocks` the reconstructed pair is
exactly `Name :` → `John` — and a KEY block records a pair exactly
when both stripped texts are non-empty. -/
theorem c8_join_trim_record :
    (extract_form_data c8Blocks = .ok [("Name :", "John")]) ∧
    (∀ (m : List (String × Block)) (acc : List (String × String)) (k : String)
       (b : Block) (kt vt : String),
      b.blockType = "KEY_VALUE_SET" → b.entityTypes = ["KEY"] →
      childWordsText m b.relationships = .ok kt →
      valueWordsText m b.relationships = .ok vt →
      extractStep m acc (k, b) =
        .ok (if pyStrip kt ≠ "" ∧ pyStrip vt ≠ "" then
               dictInsert acc (pyStrip kt) (pyStrip vt)
             else acc)) := by
  refine ⟨rfl, ?_⟩
  intro m acc k b kt vt hbt het hkt hvt
  unfold extractStep
  rw [if_pos ⟨hbt, het⟩]
  show (childWordsText m b.relationships >>= fun kt =>
    valueWordsText m b.relationships >>= fun vt =>
    pure (if pyStrip kt ≠ "" ∧ pyStrip vt ≠ "" then
            dictInsert acc (pyStrip kt) (pyStrip vt) else acc)) = _
  rw [hkt, ok_bind, hvt, ok_bind]
  rfl

/-- C8 witness: the step theorem applied to the `Name :` → `John`
example. -/
theorem c8_join_trim_record_witness :
    (childWordsText (buildBlockMap c8Blocks) c8KeyBlock.relationships = .ok "Name : ") ∧
    (valueWordsText (buildBlockMap c8Blocks) c8KeyBlock.relationships = .ok "John ") ∧
    extractStep (buildBlockMap c8Blocks) [] ("k1", c8KeyBlock) =
      .ok (if pyStrip "Name : " ≠ "" ∧ pyStrip "John " ≠ "" then
             dictInsert [] (pyStrip "Name : ") (pyStrip "John ")
           else []) :=
  ⟨rfl, rfl,
   c8_join_trim_record.2 (buildBlockMap c8Blocks) [] "k1" c8KeyBlock "Name : " "John "
     rfl rfl rfl rfl⟩

/-- C9 (confirmed): the Form Pair Reconstructor selects a block only
when its whole EntityTypes list equals `["KEY"]`; any block whose
EntityTypes list differs — even one containing KEY alongside other
entries — contributes nothing to the form data. -/
theorem c9_entity_types_strict (m : List (String × Block))
    (acc : List (String × String)) (k : String) (b : Block)
    (h : b.entityTypes ≠ ["KEY"]) : extractStep m acc (k, b) = .ok acc := by
  unfold extractStep
  rw [if_neg (fun hc => h hc.2)]
  rfl

/-- C9 witness: a KEY_VALUE_SET block with EntityTypes
`["KEY", "VALUE"]` is not selected. -/
theorem c9_entity_types_strict_witness :
    (c9Block.entityTypes ≠ ["KEY"]) ∧
    (c9Block.blockType = "KEY_VALUE_SET") ∧
    extractStep [] [] ("k9", c9Block) = .ok [] :=
  ⟨by decide, rfl, c9_entity_types_strict [] [] "k9" c9Block (by decide)⟩

/-- C2 (counterexample): the claim "each terminal write is attempted
up to 3 times, and exhausting the 3 attempts of an error-recording
write is swallowed without further escalation or payload change" is
false: on `envSoftFailAll` the hard-error write fails and is attempted
only once, and on `envSoftFailThenOk` exhausting the soft-error write
escalates to the outer handler, which persists `{"error": "db down"}`
— a different payload than the soft-error `structured_data` it was
trying to record. -/
theorem c2_counterexample :
    runPipeline envSoftFailAll =
      ⟨none, false, 3, 0, 1⟩ ∧
    runPipeline envSoftFailThenOk =
      ⟨some (.dict [("error", .str "db down")]), false, 3, 0, 1⟩ ∧
    "db down" ≠ unsupportedDocMessage :=
  ⟨rfl, rfl, by decide⟩

/-- C2 (amended): the soft-error and success writes are attempted up
to 3 times; the hard-error write is attempted at most once per run;
exhausting the soft-error write's retries re-raises the last database
error, which the outer handler converts into one hard-error attempt
persisting only the stringified database error, and a failure of that
attempt leaves nothing persisted while the run still completes. -/
theorem c2_retry_bounds :
    (∀ env : PipelineEnv,
      (runPipeline env).softAttempts ≤ 3 ∧
      (runPipeline env).successAttempts ≤ 3 ∧
      (runPipeline env).hardAttempts ≤ 1) ∧
    (∀ m : String,
      runPipeline ⟨.clientError unsupportedDocMessage, .ok "x", dbFailAll m⟩ =
        ⟨none, false, 3, 0, 1⟩) ∧
    (∀ m : String,
      runPipeline ⟨.clientError unsupportedDocMessage, .ok "x", dbFailThenOk m⟩ =
        ⟨some (.dict [("error", .str m)]), false, 3, 0, 1⟩) :=
  ⟨runPipeline_attempt_bounds, fun _ => rfl, fun _ => rfl⟩

/-- C3 (counterexample): the claim "the hard-error attempt after
success-write exhaustion is itself subject to the same 3-attempt retry
bound" is false: on `envSuccFailAll` the success write exhausts its 3
attempts and the hard-error write, though failing, is attempted only
once, not three times. -/
theorem c3_counterexample :
    runPipeline envSuccFailAll = ⟨none, true, 0, 3, 1⟩ ∧
    (runPipeline envSuccFailAll).hardAttempts ≠ 3 :=
  ⟨rfl, by decide⟩

/-- C3 (amended): when all 3 attempts of the success-path persistence
raise, the final exception propagates to the outer handler, which
makes a single (not retried) hard-error persistence attempt writing a
payload containing only the stringified exception. -/
theorem c3_success_exhaustion_escalates :
    (∀ m : String,
      runPipeline (envSuccFailThenOk m) =
        ⟨some (.dict [("error", .str m)]), true, 0, 3, 1⟩) ∧
    (∀ env : PipelineEnv, (runPipeline env).hardAttempts ≤ 1) :=
  ⟨fun _ => rfl, fun env => (runPipeline_attempt_bounds env).2.2⟩

/-- C6 (confirmed): an UnsupportedDocumentException-flavored
`ClientError` makes the analysis step return a soft-error result whose
structured data carries an `error` key; the pipeline persists that
structured data directly (when the write succeeds) and the structuring
step is never invoked in such a run. -/
theorem c6_unsupported_document (db : Nat → Option String)
    (llm : Except String String) (s : String)
    (h : containsSub s "UnsupportedDocumentException" = true) :
    analyze_document (.clientError s) =
      .ok ⟨"", [], some [("error", .str unsupportedDocMessage)]⟩ ∧
    (runPipeline ⟨.clientError s, llm, db⟩).structuringInvoked = false ∧
    (db 0 = none →
      runPipeline ⟨.clientError s, llm, db⟩ =
        ⟨some (.dict [("error", .str unsupportedDocMessage)]), false, 1, 0, 0⟩) := by
  have ha : analyze_document (.clientError s) =
      .ok ⟨"", [], some [("error", .str unsupportedDocMessage)]⟩ := by
    show (if containsSub s "UnsupportedDocumentException" = true then
        (Except.ok ⟨"", [], some [("error", PyVal.str unsupportedDocMessage)]⟩ :
          Except String OCRResult)
      else Except.error s) = _
    rw [if_pos h]
  refine ⟨ha, ?_, ?_⟩
  · show (match analyze_document (.clientError s) with
      | .error e => hardWriteTrace db 0 e false 0 0
      | .ok ocr =>
        if softErrCond ocr then
          match retryPersist db 0 with
          | (.ok _, n) => ⟨some (PyVal.dict (ocr.structured_data.getD [])), false, n, 0, 0⟩
          | (.error e, n) => hardWriteTrace db n e false n 0
        else
          match retryPersist db 0 with
          | (.ok _, n) => ⟨some (successPayload ocr (process_ocr_text ocr.text llm)), true, 0, n, 0⟩
          | (.error e, n) => hardWriteTrace db n e true 0 n).structuringInvoked = false
    rw [ha]
    show (match retryPersist db 0 with
      | (.ok _, n) =>
        (⟨some (PyVal.dict [("error", PyVal.str unsupportedDocMessage)]), false, n, 0, 0⟩ : RunTrace)
      | (.error e, n) => hardWriteTrace db n e false n 0).structuringInvoked = false
    rcases hr : retryPersist db 0 with ⟨res, n⟩
    cases res with
    | ok u => rfl
    | error e => exact (hardWriteTrace_fields db n e false n 0).2.2.2
  · intro h0
    show (match analyze_document (.clientError s) with
      | .error e => hardWriteTrace db 0 e false 0 0
      | .ok ocr =>
        if softErrCond ocr then
          match retryPersist db 0 with
          | (.ok _, n) => ⟨some (PyVal.dict (ocr.structured_data.getD [])), false, n, 0, 0⟩
          | (.error e, n) => hardWriteTrace db n e false n 0
        else
          match retryPersist db 0 with
          | (.ok _, n) => ⟨some (successPayload ocr (process_ocr_text ocr.text llm)), true, 0, n, 0⟩
          | (.error e, n) => hardWriteTrace db n e true 0 n) = _
    rw [ha]
    show (match retryPersist db 0 with
      | (.ok _, n) =>
        (⟨some (PyVal.dict [("error", PyVal.str unsupportedDocMessage)]), false, n, 0, 0⟩ : RunTrace)
      | (.error e, n) => hardWriteTrace db n e false n 0) = _
    have hr : retryPersist db 0 = (.ok (), 1) := by
      unfold retryPersist
      rw [h0]
    rw [hr]

/-- C6 witness: the theorem applied to the actual boto3 error string
with an immediately-succeeding database write. -/
theorem c6_unsupported_document_witness :
    (containsSub unsupportedDocMessage "UnsupportedDocumentException" = true) ∧
    runPipeline ⟨.clientError unsupportedDocMessage, .ok "", fun _ => none⟩ =
      ⟨some (.dict [("error", .str unsupportedDocMessage)]), false, 1, 0, 0⟩ :=
  ⟨rfl,
   (c6_unsupported_document (fun _ => none) (.ok "") unsupportedDocMessage rfl).2.2 rfl⟩

/-- C7 (confirmed): the structuring step is a total function — every
model failure is caught.  When the model call raises, the result is
`{"error": str(e), "raw_text": <input text>}`; when the (cleaned)
model output fails to parse as JSON, the result is
`{"error": "Failed to parse structured data", "raw_text": <input
text>}` — the `raw_text` field always holds the original OCR text,
never the unparseable model output. -/
theorem c7_structuring_never_raises (text : String) (model : Except String String) :
    (∀ e, model = .error e →
      process_ocr_text text model = .dict [("error", .str e), ("raw_text", .str text)]) ∧
    (∀ out, model = .ok out → json_loads (pyStrip (cleanModelOutput out)) = none →
      process_ocr_text text model =
        .dict [("error", .str parseFailureMessage), ("raw_text", .str text)]) := by
  constructor
  · intro e he
    subst he
    rfl
  · intro out ho hp
    subst ho
    show (match json_loads (pyStrip (cleanModelOutput out)) with
      | some v => v
      | none => PyVal.dict [("error", .str parseFailureMessage), ("raw_text", .str text)]) = _
    rw [hp]

/-- C7 witness: the theorem applied to the model output `not json`
and to a raising model call. -/
theorem c7_structuring_never_raises_witness :
    (json_loads (pyStrip (cleanModelOutput "not json")) = none) ∧
    process_ocr_text "SOME OCR TEXT" (.ok "not json") =
      .dict [("error", .str parseFailureMessage), ("raw_text", .str "SOME OCR TEXT")] ∧
    process_ocr_text "SOME OCR TEXT" (.error "boom") =
      .dict [("error", .str "boom"), ("raw_text", .str "SOME OCR TEXT")] :=
  ⟨rfl,
   (c7_structuring_never_raises "SOME OCR TEXT" (.ok "not json")).2 "not json" rfl rfl,
   (c7_structuring_never_raises "SOME OCR TEXT" (.error "boom")).1 "boom" rfl⟩

/-- C10 (confirmed): fence stripping removes a leading marker only
when it is exactly the seven characters ` ```json `, and a trailing
` ``` `; a model output opening with a bare ` ``` ` fence keeps its
leading fence, and since that makes the remainder unparseable the
structuring step returns the fallback object instead of the fenced
JSON content. -/
theorem c10_fence_stripping :
    (∀ s, pyStartsWith (pyStrip s) "```json" = false →
      cleanModelOutput s =
        (if pyEndsWith (pyStrip s) "```" then pyDropRight (pyStrip s) 3 else pyStrip s)) ∧
    (∀ s, pyStartsWith (pyStrip s) "```json" = true →
      cleanModelOutput s =
        (if pyEndsWith (pyDrop (pyStrip s) 7) "```" then
           pyDropRight (pyDrop (pyStrip s) 7) 3
         else pyDrop (pyStrip s) 7)) ∧
    (∀ text, process_ocr_text text (.ok bareFencedOutput) =
      .dict [("error", .str parseFailureMessage), ("raw_text", .str text)]) := by
  refine ⟨?_, ?_, ?_⟩
  · intro s h
    unfold cleanModelOutput
    dsimp only
    rw [h]
    simp
  · intro s h
    unfold cleanModelOutput
    dsimp only
    rw [h]
    rfl
  · intro text
    rfl

/-- C10 witness: the theorem applied to the bare-fenced and the
json-fenced outputs. -/
theorem c10_fence_stripping_witness :
    (pyStartsWith (pyStrip bareFencedOutput) "```json" = false) ∧
    cleanModelOutput bareFencedOutput =
      (if pyEndsWith (pyStrip bareFencedOutput) "```" then
         pyDropRight (pyStrip bareFencedOutput) 3
       else pyStrip bareFencedOutput) ∧
    cleanModelOutput jsonFencedOutput =
      (if pyEndsWith (pyDrop (pyStrip jsonFencedOutput) 7) "```" then
         pyDropRight (pyDrop (pyStrip jsonFencedOutput) 7) 3
       else pyDrop (pyStrip jsonFencedOutput) 7) :=
  ⟨rfl,
   c10_fence_stripping.1 bareFencedOutput rfl,
   c10_fence_stripping.2.1 jsonFencedOutput rfl⟩

/-- C5 (counterexample): the claim "when the persisted payload is an
error payload containing an `error` field, that error is observable
in the endpoint's response" is false: for the stored payload
`{"error": "boom"}` the endpoint rebuilds the response from the
missing `text`/`bounding_boxes`/`structured_data` keys and returns an
empty `OCRResult` in which `boom` appears nowhere. -/
theorem c5_counterexample :
    get_pdf_ocr (some (some [("error", .str "boom")])) = .ok ⟨"", [], some []⟩ := rfl

/-- C5 (amended): the endpoint rebuilds an `OCRResult` from the
payload's `text`, `bounding_boxes` and `structured_data` keys with
defaults; a top-level error payload is therefore mapped to an empty
response and its error is not observable.  A payload nested under
`structured_data` is surfaced only when the stored `bounding_boxes`
list is empty: since `BoundingBox` is not imported in `pdfs.py`,
every payload with a non-empty `bounding_boxes` list — the shape the
success path actually persists — raises `NameError` and the endpoint
answers 500, so even nested errors are then unobservable.  A missing
document gives 404 `PDF not found` and an unset `ocr_data` gives 404
`OCR results not available yet`. -/
theorem c5_ocr_endpoint_surfacing :
    (get_pdf_ocr none = .error ⟨404, "PDF not found"⟩) ∧
    (get_pdf_ocr (some none) = .error ⟨404, "OCR results not available yet"⟩) ∧
    (∀ msg, get_pdf_ocr (some (some [("error", .str msg)])) = .ok ⟨"", [], some []⟩) ∧
    (∀ (t : String) (sd : List (String × PyVal)),
      get_pdf_ocr (some (some [("text", .str t), ("structured_data", .dict sd),
        ("bounding_boxes", .list [])])) = .ok ⟨t, [], some sd⟩) ∧
    (∀ (t : String) (sd : List (String × PyVal)) (bv : PyVal) (bs : List PyVal),
      get_pdf_ocr (some (some [("text", .str t), ("structured_data", .dict sd),
        ("bounding_boxes", .list (bv :: bs))])) =
        .error ⟨500, "name 'BoundingBox' is not defined"⟩) :=
  ⟨rfl, rfl, fun _ => rfl, fun _ _ => rfl, fun _ _ _ _ => rfl⟩
